import Mathlib

/-!
Shallow embedding of the Flask blog application (`main.py`, `forms.py`):
three ORM entities (User, BlogPost, Comment), session-based
authentication, the `admin_only` gate, and the route handlers
`register`, `login`, `read_post`, `create_post`, `edit_post`,
`delete_post`.

Modelling conventions:
* The relational store is a triple of lists (one per table); SQLite
  integer primary keys are modelled by `freshId` (max id + 1).
* Nullable foreign-key columns (`author_id`, `poster_id`,
  `blog_post_id` carry no `nullable=False` in the schema) are `Option Nat`.
* A request handler is a function from the application state (database,
  session, pending flash messages) and the request data to a pair of the
  HTTP-level response and the new application state.
* `Response.serverError` models an unhandled Python exception, which
  Flask turns into an HTTP 500 response.
* `validate_on_submit()` is false on a GET request; a POST submission is
  an `Option` of the form's field data.
* The werkzeug password helpers (external library) are modelled
  structurally: `generate_password_hash` produces `method$salt$digest`
  and `check_password_hash` parses the salt back out and recomputes, as
  werkzeug does; the PBKDF2-SHA256 digest itself is modelled by a
  concrete hex-valued stand-in digest of (password, salt).
-/

namespace Blog

/-- Embeds `class User(UserMixin, db.Model)`: id, name, email (unique), password. -/
structure User where
  id : Nat
  name : String
  email : String
  password : String
deriving Repr, DecidableEq

/-- Embeds `class BlogPost(db.Model)`: id, title (unique), subtitle, date, body,
img_url, nullable FK `author_id`. -/
structure BlogPost where
  id : Nat
  title : String
  subtitle : String
  date : String
  body : String
  img_url : String
  author_id : Option Nat
deriving Repr, DecidableEq

/-- Embeds `class Comment(db.Model)`: id, text, nullable FKs `poster_id` and
`blog_post_id`. -/
structure Comment where
  id : Nat
  text : String
  poster_id : Option Nat
  blog_post_id : Option Nat
deriving Repr, DecidableEq

/-- The relational store: one list per table. -/
structure DB where
  users : List User
  posts : List BlogPost
  comments : List Comment
deriving Repr, DecidableEq

/-- Per-request application state: the store, the flask-login session
(the logged-in user's id, `none` = anonymous), and the flash queue. -/
structure AppState where
  db : DB
  session : Option Nat
  flashes : List String
deriving Repr, DecidableEq

/-- The HTTP-level outcome of a handler. `serverError` models an
unhandled Python exception (Flask returns HTTP 500). -/
inductive Response where
  | render (template : String)
  | redirect (endpoint : String)
  | httpError (code : Nat)
  | serverError (exn : String)
deriving Repr, DecidableEq

/-- SQLite integer primary key assignment: one more than the largest id. -/
def freshId (ids : List Nat) : Nat :=
  ids.foldl max 0 + 1

/-- Embeds `load_user(user_id)`: `User.query.get(int(user_id))`. -/
def load_user (db : DB) (uid : Nat) : Option User :=
  db.users.find? (fun u => u.id == uid)

/-- flask-login's `current_user`: the user loaded from the session id;
`none` models the `AnonymousUserMixin` proxy. -/
def current_user (st : AppState) : Option User :=
  st.session.bind (load_user st.db)

/-! ### Form validators (`forms.py`) -/

/-- wtforms `DataRequired()`: fails on a missing or whitespace-only
string (Python `not field.data or not field.data.strip()`). -/
def dataRequired (s : String) : Bool :=
  s.data.any (fun c => !c.isWhitespace)

/-- wtforms `Email()` validator (external collaborator): modelled as the
presence of an at-sign; no claim depends on its exact syntax. -/
def emailOk (s : String) : Bool :=
  s.data.any (fun c => c == '@')

/-- wtforms `URL()` validator (external collaborator): modelled as an
http(s) scheme prefix; no claim depends on its exact syntax. -/
def urlOk (s : String) : Bool :=
  "http://".data.isPrefixOf s.data || "https://".data.isPrefixOf s.data

/-- Embeds `RegisterForm`: name, email, password all `DataRequired`, email also
`Email()`. -/
def registerFormValid (name email pw : String) : Bool :=
  dataRequired name && (dataRequired email && emailOk email) && dataRequired pw

/-- Embeds `LoginForm`: email `DataRequired` + `Email()`, password
`DataRequired`. -/
def loginFormValid (email pw : String) : Bool :=
  (dataRequired email && emailOk email) && dataRequired pw

/-- Field data of `CreatePostForm`. -/
structure PostFields where
  title : String
  subtitle : String
  body : String
  img_url : String
deriving Repr, DecidableEq

/-- Embeds `CreatePostForm`: title, subtitle, body `DataRequired`; img_url
`DataRequired` + `URL()`. -/
def createPostFormValid (f : PostFields) : Bool :=
  dataRequired f.title && dataRequired f.subtitle &&
    (dataRequired f.img_url && urlOk f.img_url) && dataRequired f.body

/-- Embeds `CommentForm`: the comment text is `DataRequired`. -/
def commentFormValid (text : String) : Bool :=
  dataRequired text

/-! ### Password hashing (werkzeug, external library, modelled) -/

/-- Lower-case hex digit of `n` (`n < 16`). -/
def hexDigit (n : Nat) : Char :=
  if n < 10 then Char.ofNat (48 + n) else Char.ofNat (87 + n)

/-- Hex encoding of a character list, two hex digits per character. -/
def hexEncodeL : List Char → List Char
  | [] => []
  | c :: cs => hexDigit (c.toNat / 16 % 16) :: hexDigit (c.toNat % 16) :: hexEncodeL cs

/-- Stand-in for the PBKDF2-SHA256 digest: a deterministic hex-valued
digest of the password and salt (the real digest is a fixed-width hex
string computed from exactly these two inputs). -/
def pbkdf2_sha256 (pw salt : String) : String :=
  String.mk (hexEncodeL (pw.data ++ salt.data))

/-- The werkzeug method tag stored in front of every hash. -/
def hash_method : String := "pbkdf2:sha256:600000"

/-- Embeds `generate_password_hash(pw, method="pbkdf2:sha256", salt_length=8)`:
stores `method$salt$digest`. -/
def generate_password_hash (pw salt : String) : String :=
  hash_method ++ "$" ++ salt ++ "$" ++ pbkdf2_sha256 pw salt

/-- Split a character list at the first occurrence of `sep`
(Python `str.split(sep, 1)` step). -/
def splitOnce (sep : Char) : List Char → Option (List Char × List Char)
  | [] => none
  | c :: rest =>
    if c = sep then some ([], rest)
    else (splitOnce sep rest).map (fun p => (c :: p.1, p.2))

/-- Embeds `check_password_hash(stored, pw)`: parse `method$salt$digest` (split
on the first two dollar signs, as werkzeug does) and recompute the
digest of `pw` with the stored salt. -/
def check_password_hash (stored pw : String) : Bool :=
  match splitOnce '$' stored.data with
  | none => false
  | some (m, rest) =>
    match splitOnce '$' rest with
    | none => false
    | some (salt, h) =>
      m == hash_method.data && h == (pbkdf2_sha256 pw (String.mk salt)).data

/-! ### Route handlers (`main.py`) -/

/-- The `@admin_only` decorator: evaluates `current_user.id != 1`.
When the principal is anonymous, flask-login's `AnonymousUserMixin` has
no `id` attribute, so the comparison raises `AttributeError` (an
unhandled exception, HTTP 500); an authenticated non-admin gets
`abort(403)`; the admin falls through to the wrapped handler. -/
def admin_only (st : AppState) (f : User → Response × AppState) : Response × AppState :=
  match current_user st with
  | none => (Response.serverError "AttributeError: id", st)
  | some u =>
    if u.id != 1 then (Response.httpError 403, st)
    else f u

/-- The `register` route, POST with field data (the GET / invalid-form path
renders the form). The duplicate-email check precedes any write; on the
fresh path the new user is inserted and logged in. The `users.email`
unique constraint cannot fire here because the check just queried for
that exact email in the same request. -/
def register (st : AppState) (name email pw salt : String) : Response × AppState :=
  if registerFormValid name email pw then
    match st.db.users.find? (fun u => u.email == email) with
    | some _ =>
      (Response.redirect "login",
        { st with flashes := st.flashes ++
            ["A user with this Email-Id already exists. Try Logging In instead!"] })
    | none =>
      let hash_salted_password := generate_password_hash pw salt
      let uid := freshId (st.db.users.map (·.id))
      let new_user : User := ⟨uid, name, email, hash_salted_password⟩
      (Response.redirect "home",
        { st with
            db := { st.db with users := st.db.users ++ [new_user] },
            session := some uid })
  else
    (Response.render "register.html", st)

/-- The `login` route, POST with field data: unknown email and wrong
password each flash and redirect back to `login` with no state change;
a verified password binds the session to the matched user. -/
def login (st : AppState) (email pw : String) : Response × AppState :=
  if loginFormValid email pw then
    match st.db.users.find? (fun u => u.email == email) with
    | some u =>
      if check_password_hash u.password pw then
        (Response.redirect "home", { st with session := some u.id })
      else
        (Response.redirect "login",
          { st with flashes := st.flashes ++ ["Incorrect Password. Try Again!"] })
    | none =>
      (Response.redirect "login",
        { st with flashes := st.flashes ++
            ["This Email-Id does not exist. Try Again or Register!"] })
  else
    (Response.render "login.html", st)

/-- The `logout` route: clear the session, redirect home. -/
def logout (st : AppState) : Response × AppState :=
  (Response.redirect "home", { st with session := none })

/-- The `read_post` route (`/post/<int:post_id>`): `submission = none`
models a GET (or a POST whose form fails CSRF); `some text` a POSTed
comment. `validate_on_submit()` is checked before the authentication
check; the comment is built from `clicked_post` even when that lookup
returned `None` (the FK is then NULL). -/
def read_post (st : AppState) (post_id : Nat) (submission : Option String) :
    Response × AppState :=
  let clicked_post := st.db.posts.find? (fun p => p.id == post_id)
  match submission with
  | some text =>
    if commentFormValid text then
      match current_user st with
      | some u =>
        let cid := freshId (st.db.comments.map (·.id))
        let new_comment : Comment := ⟨cid, text, some u.id, clicked_post.map (·.id)⟩
        (Response.render "post.html",
          { st with db := { st.db with comments := st.db.comments ++ [new_comment] } })
      | none =>
        (Response.redirect "login",
          { st with flashes := st.flashes ++
              ["You must be logged in to comment on a post!"] })
    else
      (Response.render "post.html", st)
  | none => (Response.render "post.html", st)

/-- The `create_post` route (`/new-post`, `@admin_only`): no application
level duplicate-title check exists; committing an INSERT whose title
equals an existing post's title violates the `blog_posts.title` UNIQUE
constraint and raises an unhandled `IntegrityError`. -/
def create_post (st : AppState) (submission : Option PostFields) (today : String) :
    Response × AppState :=
  admin_only st (fun u =>
    match submission with
    | some f =>
      if createPostFormValid f then
        if st.db.posts.any (fun p => p.title == f.title) then
          (Response.serverError "IntegrityError: UNIQUE constraint failed: blog_posts.title", st)
        else
          let pid := freshId (st.db.posts.map (·.id))
          let new_post : BlogPost :=
            ⟨pid, f.title, f.subtitle, today, f.body, f.img_url, some u.id⟩
          (Response.redirect "home",
            { st with db := { st.db with posts := st.db.posts ++ [new_post] } })
      else (Response.render "make-post.html", st)
    | none => (Response.render "make-post.html", st))

/-- The `edit_post` route (`/edit-post/<int:post_id>`, `@admin_only`): the
form is pre-filled from `post_to_edit` before any check, so a missing
post raises `AttributeError` even on GET; a valid submission overwrites
title, subtitle, body and img_url of the row with that id, leaving id,
date and author_id alone; committing an UPDATE that gives this post the
title of a different post violates the UNIQUE constraint. -/
def edit_post (st : AppState) (post_id : Nat) (submission : Option PostFields) :
    Response × AppState :=
  admin_only st (fun _ =>
    match st.db.posts.find? (fun p => p.id == post_id) with
    | none => (Response.serverError "AttributeError: title", st)
    | some post_to_edit =>
      match submission with
      | some f =>
        if createPostFormValid f then
          if st.db.posts.any (fun q => q.title == f.title && q.id != post_to_edit.id) then
            (Response.serverError "IntegrityError: UNIQUE constraint failed: blog_posts.title", st)
          else
            (Response.redirect "read_post",
              { st with db := { st.db with posts := st.db.posts.map (fun q =>
                  if q.id == post_to_edit.id then
                    { q with title := f.title, subtitle := f.subtitle,
                             body := f.body, img_url := f.img_url }
                  else q) } })
        else (Response.render "make-post.html", st)
      | none => (Response.render "make-post.html", st))

/-- The `delete_post` route (`/delete/<int:post_id>`, `@admin_only`):
`db.session.delete(None)` raises when the post is absent; otherwise the
post row is deleted. Neither `BlogPost.comments` nor the FK declares a
delete cascade, so SQLAlchemy de-associates the dependent comments on
parent deletion: their `blog_post_id` is set to NULL and the comment
rows themselves stay. -/
def delete_post (st : AppState) (post_id : Nat) : Response × AppState :=
  admin_only st (fun _ =>
    match st.db.posts.find? (fun p => p.id == post_id) with
    | none => (Response.serverError "UnmappedInstanceError: None", st)
    | some p =>
      (Response.redirect "home",
        { st with db := { st.db with
            posts := st.db.posts.filter (fun q => q.id != p.id),
            comments := st.db.comments.map (fun c =>
              if c.blog_post_id == some p.id then { c with blog_post_id := none } else c) } }))

/-! ### Concrete request fixtures -/

/-- Fixture for C1: one admin, one post (id 1), one comment (id 7)
referencing that post; the admin is logged in. -/
def c1_state : AppState :=
  ⟨⟨[⟨1, "Admin", "admin@x.com", "stored-hash"⟩],
    [⟨1, "Hello", "Sub", "May 01, 2025", "Body", "http://img", some 1⟩],
    [⟨7, "nice", some 1, some 1⟩]⟩, some 1, []⟩

/-- Fixture for C2: an admin (id 1), a second user Alice (id 2), one post. -/
def c2_db : DB :=
  ⟨[⟨1, "Admin", "admin@x.com", "stored-hash"⟩, ⟨2, "Alice", "a@x.com", "stored-hash-2"⟩],
   [⟨1, "Hello", "Sub", "May 01, 2025", "Body", "http://img", some 1⟩], []⟩

/-- C2: anonymous request state. -/
def c2_anon_state : AppState := ⟨c2_db, none, []⟩

/-- C2: request state of the authenticated non-admin Alice. -/
def c2_alice_state : AppState := ⟨c2_db, some 2, []⟩

/-- C2: a well-formed post submission. -/
def c2_fields : PostFields := ⟨"New", "Sub2", "Body2", "http://img2"⟩

/-- Fixture for C3: admin logged in; a post titled "Hello" exists. -/
def c3_state : AppState :=
  ⟨⟨[⟨1, "Admin", "admin@x.com", "stored-hash"⟩],
    [⟨1, "Hello", "Sub", "May 01, 2025", "Body", "http://img", some 1⟩], []⟩, some 1, []⟩

/-- C3: a well-formed submission reusing the existing title. -/
def c3_fields : PostFields := ⟨"Hello", "Other sub", "Other body", "http://img2"⟩

/-- Fixture for C4: admin logged in; the post table is empty. -/
def c4_state : AppState :=
  ⟨⟨[⟨1, "Admin", "admin@x.com", "stored-hash"⟩], [], []⟩, some 1, []⟩

/-- Fixture for C5: anonymous visitor, one post. -/
def c5_state : AppState :=
  ⟨⟨[], [⟨1, "Hello", "Sub", "May 01, 2025", "Body", "http://img", some 1⟩], []⟩, none, []⟩

/-- Fixture for C6: one registered user. -/
def c6_state : AppState :=
  ⟨⟨[⟨1, "Alice", "a@x.com", "stored-hash"⟩], [], []⟩, none, []⟩

/-- Fixture for C7: an empty store. -/
def c7_state : AppState := ⟨⟨[], [], []⟩, none, []⟩

/-- Fixture for C8: one user whose stored credential was produced by the
hashing helper. -/
def c8_state : AppState :=
  ⟨⟨[⟨1, "Alice", "a@x.com", generate_password_hash "pw123" "saltsalt"⟩], [], []⟩, none, []⟩

/-- Fixture for C9: admin logged in, one post. -/
def c9_state : AppState :=
  ⟨⟨[⟨1, "Admin", "admin@x.com", "stored-hash"⟩],
    [⟨1, "Hello", "Sub", "May 01, 2025", "Body", "http://img", some 1⟩], []⟩, some 1, []⟩

/-- C9: the replacement field data. -/
def c9_fields : PostFields := ⟨"New title", "New sub", "New body", "http://img2"⟩

/-- Fixture for C10: anonymous visitor, one post. -/
def c10_state : AppState :=
  ⟨⟨[], [⟨1, "Hello", "Sub", "May 01, 2025", "Body", "http://img", some 1⟩], []⟩, none, []⟩

/-! ### Auxiliary lemmas -/

theorem splitOnce_append (sep : Char) (a b : List Char) (h : sep ∉ a) :
    splitOnce sep (a ++ sep :: b) = some (a, b) := by
  induction a with
  | nil => simp [splitOnce]
  | cons c cs ih =>
    simp only [List.mem_cons, not_or] at h
    rw [List.cons_append, splitOnce, if_neg (fun hc => h.1 hc.symm), ih h.2]
    rfl

theorem hexEncodeL_length (l : List Char) : (hexEncodeL l).length = 2 * l.length := by
  induction l with
  | nil => rfl
  | cons c cs ih => simp [hexEncodeL, ih]; ring

theorem pbkdf2_sha256_length (pw salt : String) :
    (pbkdf2_sha256 pw salt).length = 2 * (pw.length + salt.length) := by
  show (hexEncodeL (pw.data ++ salt.data)).length = 2 * (pw.length + salt.length)
  rw [hexEncodeL_length, List.length_append]
  rfl

/-- The stored credential is structurally longer than the raw password,
hence never equal to it. -/
theorem generate_password_hash_ne (pw salt : String) :
    generate_password_hash pw salt ≠ pw := by
  intro h
  have hl : (generate_password_hash pw salt).length = pw.length := congrArg String.length h
  have hm : hash_method.length = 20 := by decide
  have hd : ("$" : String).length = 1 := by decide
  rw [generate_password_hash, String.length_append, String.length_append,
    String.length_append, String.length_append, pbkdf2_sha256_length, hm, hd] at hl
  omega

/-- Werkzeug roundtrip: verifying the stored `method$salt$digest` value
against the original password succeeds (salt free of the separator). -/
theorem check_generate (pw salt : String) (hsalt : ('$' : Char) ∉ salt.data) :
    check_password_hash (generate_password_hash pw salt) pw = true := by
  have hm : ('$' : Char) ∉ hash_method.data := by decide
  have hdata : (generate_password_hash pw salt).data
      = hash_method.data ++ '$' :: (salt.data ++ '$' :: (pbkdf2_sha256 pw salt).data) := by
    simp [generate_password_hash, String.data_append]
  unfold check_password_hash
  rw [hdata, splitOnce_append _ _ _ hm]
  dsimp only
  rw [splitOnce_append _ _ _ hsalt]
  dsimp only
  cases salt
  simp

theorem loginFormValid_of_register (name email pw : String)
    (h : registerFormValid name email pw = true) : loginFormValid email pw = true := by
  simp only [registerFormValid, Bool.and_eq_true] at h
  obtain ⟨⟨hn, he1, he2⟩, hp⟩ := h
  simp [loginFormValid, he1, he2, hp]

/-! ### Claims -/

/-- C5: an anonymous principal submitting a non-empty comment on an
existing post is redirected to the login route with a flash message;
no Comment row is created, the store is untouched, and the comment text
is dropped (the resulting state retains nothing of it). -/
theorem c5_anonymous_comment_unauthenticated (st : AppState) (pid : Nat) (text : String)
    (hanon : st.session = none)
    (_hpost : (st.db.posts.find? (fun p => p.id == pid)).isSome = true)
    (htext : dataRequired text = true) :
    (read_post st pid (some text)).1 = Response.redirect "login" ∧
    (read_post st pid (some text)).2.db = st.db ∧
    (read_post st pid (some text)).2.session = none ∧
    (read_post st pid (some text)).2.flashes =
      st.flashes ++ ["You must be logged in to comment on a post!"] := by
  simp [read_post, commentFormValid, htext, current_user, hanon]

/-- C10: on the comment-submission path the form validation runs before
the authentication check: an anonymous empty comment re-renders the post
page (no redirect) and changes nothing, while the unauthenticated
redirect is reached only for a validated comment, whose text is then
necessarily non-empty; in either case no Comment row is created. -/
theorem c10_validate_before_auth (st : AppState) (pid : Nat) (text : String)
    (hanon : st.session = none) :
    (dataRequired text = false →
      (read_post st pid (some text)).1 = Response.render "post.html" ∧
      (read_post st pid (some text)).2 = st) ∧
    (dataRequired text = true →
      (read_post st pid (some text)).1 = Response.redirect "login" ∧
      (read_post st pid (some text)).2.db.comments = st.db.comments ∧
      text ≠ "") := by
  constructor
  · intro h
    simp [read_post, commentFormValid, h]
  · intro h
    refine ⟨?_, ?_, ?_⟩
    · simp [read_post, commentFormValid, h, current_user, hanon]
    · simp [read_post, commentFormValid, h, current_user, hanon]
    · intro heq
      rw [heq] at h
      exact absurd h (by decide)

/-- C6: registering with an email that exactly matches an existing
user's email fails before any write: no new User row, no session
established for the attempt (the duplicate check precedes the insert). -/
theorem c6_duplicate_email_register (st : AppState) (name email pw salt : String)
    (hvalid : registerFormValid name email pw = true)
    (hdup : ∃ u ∈ st.db.users, u.email = email) :
    (register st name email pw salt).1 = Response.redirect "login" ∧
    (register st name email pw salt).2.db = st.db ∧
    (register st name email pw salt).2.session = st.session := by
  obtain ⟨u, hu, hue⟩ := hdup
  have hfind : (st.db.users.find? (fun v => v.email == email)).isSome = true := by
    rw [List.find?_isSome]
    exact ⟨u, hu, by simp [hue]⟩
  obtain ⟨w, hw⟩ := Option.isSome_iff_exists.mp hfind
  simp [register, hvalid, hw]

/-- C7: a successful registration stores a credential that is never the
raw password string, and a subsequent login with the same email and the
original raw password succeeds, binding the session to the new user. -/
theorem c7_register_hash_roundtrip (st : AppState) (name email pw salt : String)
    (hvalid : registerFormValid name email pw = true)
    (hfresh : ∀ u ∈ st.db.users, u.email ≠ email)
    (hsalt : ('$' : Char) ∉ salt.data) :
    ∃ newu : User,
      (register st name email pw salt).2.db.users = st.db.users ++ [newu] ∧
      newu.email = email ∧
      newu.password ≠ pw ∧
      (login (register st name email pw salt).2 email pw).1 = Response.redirect "home" ∧
      (login (register st name email pw salt).2 email pw).2.session = some newu.id := by
  have hnone : st.db.users.find? (fun u => u.email == email) = none := by
    rw [List.find?_eq_none]
    intro u hu
    simp [hfresh u hu]
  have hlv := loginFormValid_of_register name email pw hvalid
  refine ⟨⟨freshId (st.db.users.map (·.id)), name, email, generate_password_hash pw salt⟩,
    ?_, rfl, generate_password_hash_ne pw salt, ?_, ?_⟩
  · simp [register, hvalid, hnone]
  · simp [register, hvalid, hnone, login, hlv, List.find?_append,
      check_generate pw salt hsalt]
  · simp [register, hvalid, hnone, login, hlv, List.find?_append,
      check_generate pw salt hsalt]

/-- C8: login fails on an unknown email and on a non-verifying password,
each with a flash and a redirect back to login and with no change to the
store or the session; on success the session is bound to the matched
user and the store is unchanged. -/
theorem c8_login_cases (st : AppState) (email pw : String)
    (hvalid : loginFormValid email pw = true) :
    (st.db.users.find? (fun u => u.email == email) = none →
      (login st email pw).1 = Response.redirect "login" ∧
      (login st email pw).2.db = st.db ∧
      (login st email pw).2.session = st.session ∧
      (login st email pw).2.flashes =
        st.flashes ++ ["This Email-Id does not exist. Try Again or Register!"]) ∧
    (∀ u, st.db.users.find? (fun v => v.email == email) = some u →
      (check_password_hash u.password pw = false →
        (login st email pw).1 = Response.redirect "login" ∧
        (login st email pw).2.db = st.db ∧
        (login st email pw).2.session = st.session ∧
        (login st email pw).2.flashes = st.flashes ++ ["Incorrect Password. Try Again!"]) ∧
      (check_password_hash u.password pw = true →
        (login st email pw).1 = Response.redirect "home" ∧
        (login st email pw).2.db = st.db ∧
        (login st email pw).2.flashes = st.flashes ∧
        (login st email pw).2.session = some u.id)) := by
  refine ⟨?_, ?_⟩
  · intro hnone
    simp [login, hvalid, hnone]
  · intro u hu
    refine ⟨?_, ?_⟩
    · intro hbad
      simp [login, hvalid, hu, hbad]
    · intro hok
      simp [login, hvalid, hu, hok]

/-- C9: a successful edit overwrites exactly title, subtitle, body and
image URL of the targeted post; every row keeps its id, date and author
reference, untargeted posts are untouched, and the comment and user
tables and the session are unchanged. -/
theorem c9_edit_post_frame (st : AppState) (pid : Nat) (f : PostFields) (p : BlogPost)
    (u : User) (hcur : current_user st = some u) (hadmin : u.id = 1)
    (hfind : st.db.posts.find? (fun q => q.id == pid) = some p)
    (hvalid : createPostFormValid f = true)
    (hnodup : st.db.posts.any (fun q => q.title == f.title && q.id != p.id) = false) :
    (edit_post st pid (some f)).1 = Response.redirect "read_post" ∧
    (edit_post st pid (some f)).2.db.posts = st.db.posts.map (fun q =>
      if q.id == p.id then
        { q with title := f.title, subtitle := f.subtitle,
                 body := f.body, img_url := f.img_url }
      else q) ∧
    (edit_post st pid (some f)).2.db.comments = st.db.comments ∧
    (edit_post st pid (some f)).2.db.users = st.db.users ∧
    (edit_post st pid (some f)).2.session = st.session ∧
    List.Forall₂ (fun q q' =>
        q'.id = q.id ∧ q'.date = q.date ∧ q'.author_id = q.author_id ∧
        (q.id ≠ p.id → q' = q))
      st.db.posts (edit_post st pid (some f)).2.db.posts := by
  have hupd : (edit_post st pid (some f)).2.db.posts = st.db.posts.map (fun q =>
      if q.id == p.id then
        { q with title := f.title, subtitle := f.subtitle,
                 body := f.body, img_url := f.img_url }
      else q) := by
    simp [edit_post, admin_only, hcur, hadmin, hfind, hvalid, hnodup]
  refine ⟨?_, hupd, ?_, ?_, ?_, ?_⟩
  · simp [edit_post, admin_only, hcur, hadmin, hfind, hvalid, hnodup]
  · simp [edit_post, admin_only, hcur, hadmin, hfind, hvalid, hnodup]
  · simp [edit_post, admin_only, hcur, hadmin, hfind, hvalid, hnodup]
  · simp [edit_post, admin_only, hcur, hadmin, hfind, hvalid, hnodup]
  · rw [hupd, List.forall₂_map_right_iff, List.forall₂_same]
    intro q hq
    by_cases h : q.id = p.id
    · simp [h]
    · simp [h]

/-- C1 counterexample: deleting post 1, which comment 7 references, does
not delete the comment row — it is still present afterwards (with its
post reference nulled), so the claimed cascade deletion of comments does
not happen. -/
theorem c1_counterexample :
    (delete_post c1_state 1).2.db.comments = [⟨7, "nice", some 1, none⟩] ∧
    (delete_post c1_state 1).2.db.comments ≠ [] := by
  decide

/-- C1 (amended): deleting an existing post as the admin removes the
post and deletes no comment row: the comment count is unchanged, every
comment that referenced the post survives with its post reference set
to NULL (so no comment references the deleted post afterwards), and the
response is the home redirect. -/
theorem c1_delete_post_detaches_comments (st : AppState) (pid : Nat) (p : BlogPost)
    (u : User) (hcur : current_user st = some u) (hadmin : u.id = 1)
    (hfind : st.db.posts.find? (fun q => q.id == pid) = some p) :
    (delete_post st pid).1 = Response.redirect "home" ∧
    (∀ q ∈ (delete_post st pid).2.db.posts, q.id ≠ p.id) ∧
    (delete_post st pid).2.db.comments.length = st.db.comments.length ∧
    (∀ c ∈ (delete_post st pid).2.db.comments, c.blog_post_id ≠ some p.id) ∧
    (∀ c ∈ st.db.comments, c.blog_post_id = some p.id →
      ∃ c' ∈ (delete_post st pid).2.db.comments,
        c'.id = c.id ∧ c'.text = c.text ∧ c'.poster_id = c.poster_id ∧
        c'.blog_post_id = none) := by
  have hres : (delete_post st pid).1 = Response.redirect "home" := by
    simp [delete_post, admin_only, hcur, hadmin, hfind]
  have hposts : (delete_post st pid).2.db.posts
      = st.db.posts.filter (fun q => q.id != p.id) := by
    simp [delete_post, admin_only, hcur, hadmin, hfind]
  have hcomments : (delete_post st pid).2.db.comments
      = st.db.comments.map (fun c =>
          if c.blog_post_id == some p.id then { c with blog_post_id := none } else c) := by
    simp [delete_post, admin_only, hcur, hadmin, hfind]
  refine ⟨hres, ?_, ?_, ?_, ?_⟩
  · intro q hq
    rw [hposts] at hq
    simpa using (List.of_mem_filter hq)
  · rw [hcomments, List.length_map]
  · intro c hc
    rw [hcomments] at hc
    obtain ⟨c0, hc0, hceq⟩ := List.mem_map.mp hc
    by_cases h : c0.blog_post_id = some p.id
    · rw [← hceq]
      simp [h]
    · rw [← hceq]
      simp [h]
  · intro c hc hcp
    refine ⟨{ c with blog_post_id := none }, ?_, rfl, rfl, rfl, rfl⟩
    rw [hcomments]
    have hval : (fun c : Comment =>
        if c.blog_post_id == some p.id then { c with blog_post_id := none } else c) c
        = { c with blog_post_id := none } := by
      simp [hcp]
    rw [← hval]
    exact List.mem_map_of_mem _ hc

/-- C1 witness: the amended deletion behavior on the concrete
one-post-one-comment store. -/
theorem c1_delete_witness :
    (delete_post c1_state 1).1 = Response.redirect "home" ∧
    (delete_post c1_state 1).2.db.comments.length = c1_state.db.comments.length := by
  have h := c1_delete_post_detaches_comments c1_state 1
    ⟨1, "Hello", "Sub", "May 01, 2025", "Body", "http://img", some 1⟩
    ⟨1, "Admin", "admin@x.com", "stored-hash"⟩ (by decide) rfl (by decide)
  exact ⟨h.1, h.2.2.1⟩

/-- C2: the admin gate evaluated at the failing input. An authenticated
non-admin receives the terminal 403 with no state change on every
admin-only route, but the anonymous principal does not: evaluating
`current_user.id` on the anonymous user raises AttributeError (an
unhandled exception, HTTP 500), not the Forbidden response the claim
requires; state is still unmutated. -/
theorem c2_admin_gate_at_failing_input :
    (create_post c2_alice_state (some c2_fields) "May 02, 2025").1 = Response.httpError 403 ∧
    (create_post c2_alice_state (some c2_fields) "May 02, 2025").2 = c2_alice_state ∧
    (edit_post c2_alice_state 1 (some c2_fields)).1 = Response.httpError 403 ∧
    (delete_post c2_alice_state 1).1 = Response.httpError 403 ∧
    (create_post c2_anon_state (some c2_fields) "May 02, 2025").1
      = Response.serverError "AttributeError: id" ∧
    (create_post c2_anon_state (some c2_fields) "May 02, 2025").1 ≠ Response.httpError 403 ∧
    (create_post c2_anon_state (some c2_fields) "May 02, 2025").2 = c2_anon_state ∧
    (edit_post c2_anon_state 1 (some c2_fields)).1 = Response.serverError "AttributeError: id" ∧
    (delete_post c2_anon_state 1).1 = Response.serverError "AttributeError: id" := by
  decide

/-- C3 counterexample: when the admin submits a second post titled
"Hello", no flash message or redirect is produced — the commit violates
the UNIQUE title constraint and surfaces as an unhandled IntegrityError
(a raw fault); the state, including the flash queue, is unchanged. -/
theorem c3_counterexample :
    (create_post c3_state (some c3_fields) "May 02, 2025").1
      = Response.serverError "IntegrityError: UNIQUE constraint failed: blog_posts.title" ∧
    (create_post c3_state (some c3_fields) "May 02, 2025").2.flashes = [] ∧
    (create_post c3_state (some c3_fields) "May 02, 2025").2 = c3_state := by
  decide

/-- C3 (amended): an admin createPost whose title exactly equals an
existing post's title fails at the database unique constraint with an
unhandled IntegrityError — a raw fault, not a user-visible flash message
with redirect — and creates no BlogPost row (the state is unchanged). -/
theorem c3_duplicate_title_raw_fault (st : AppState) (f : PostFields) (today : String)
    (u : User) (hcur : current_user st = some u) (hadmin : u.id = 1)
    (hvalid : createPostFormValid f = true)
    (hdup : ∃ p ∈ st.db.posts, p.title = f.title) :
    (create_post st (some f) today).1
      = Response.serverError "IntegrityError: UNIQUE constraint failed: blog_posts.title" ∧
    (create_post st (some f) today).2 = st := by
  obtain ⟨p, hp, hpt⟩ := hdup
  have hany : st.db.posts.any (fun q => q.title == f.title) = true :=
    List.any_eq_true.mpr ⟨p, hp, by simp [hpt]⟩
  simp [create_post, admin_only, hcur, hadmin, hvalid, hany]

/-- C3 witness: the amended duplicate-title behavior on the concrete
store holding a post titled "Hello". -/
theorem c3_duplicate_title_witness :
    (create_post c3_state (some c3_fields) "June 01, 2025").2 = c3_state :=
  (c3_duplicate_title_raw_fault c3_state c3_fields "June 01, 2025"
    ⟨1, "Admin", "admin@x.com", "stored-hash"⟩ (by decide) rfl (by decide)
    ⟨⟨1, "Hello", "Sub", "May 01, 2025", "Body", "http://img", some 1⟩, by decide, rfl⟩).2

/-- C4 counterexample: with no post of id 99 in the store, the
authenticated admin's comment is persisted with a NULL post reference,
and the response is a plain page render — contradicting both the
required NotFound failure and "no Comment row is created". -/
theorem c4_counterexample :
    (read_post c4_state 99 (some "nice")).1 = Response.render "post.html" ∧
    (read_post c4_state 99 (some "nice")).2.db.comments = [⟨1, "nice", some 1, none⟩] := by
  decide

/-- C4 (amended): when no post has the given id, no operation fails
NotFound: the post page is rendered around the missing post with the
state unchanged; editPost and deletePost (by the admin) raise unhandled
exceptions leaving the state unchanged; and addComment by an
authenticated principal with valid text persists a Comment row whose
post reference is NULL. -/
theorem c4_missing_post_no_notfound (st : AppState) (pid : Nat)
    (hnone : st.db.posts.find? (fun p => p.id == pid) = none) :
    ((read_post st pid none).1 = Response.render "post.html" ∧
      (read_post st pid none).2 = st) ∧
    (∀ u, current_user st = some u → u.id = 1 →
      (∀ sub, (edit_post st pid sub).1 = Response.serverError "AttributeError: title" ∧
        (edit_post st pid sub).2 = st) ∧
      ((delete_post st pid).1 = Response.serverError "UnmappedInstanceError: None" ∧
        (delete_post st pid).2 = st)) ∧
    (∀ text u, current_user st = some u → dataRequired text = true →
      (read_post st pid (some text)).1 = Response.render "post.html" ∧
      (read_post st pid (some text)).2.db.comments = st.db.comments ++
        [⟨freshId (st.db.comments.map (·.id)), text, some u.id, none⟩]) := by
  refine ⟨?_, ?_, ?_⟩
  · simp [read_post]
  · intro u hcur hadmin
    refine ⟨fun sub => ?_, ?_⟩
    · simp [edit_post, admin_only, hcur, hadmin, hnone]
    · simp [delete_post, admin_only, hcur, hadmin, hnone]
  · intro text u hcur htext
    constructor
    · simp [read_post, commentFormValid, htext, hcur]
    · simp [read_post, commentFormValid, htext, hcur, hnone]

/-- C4 witness: the amended missing-post behavior on the concrete empty
post table. -/
theorem c4_missing_post_witness :
    (read_post c4_state 99 (some "hey")).2.db.comments = [⟨1, "hey", some 1, none⟩] := by
  have h := (c4_missing_post_no_notfound c4_state 99 (by decide)).2.2 "hey"
    ⟨1, "Admin", "admin@x.com", "stored-hash"⟩ (by decide) (by decide)
  exact h.2.trans (by decide)

/-- C5 witness: the anonymous comment redirect on a concrete store. -/
theorem c5_witness :
    (read_post c5_state 1 (some "nice")).1 = Response.redirect "login" ∧
    (read_post c5_state 1 (some "nice")).2.db = c5_state.db := by
  have h := c5_anonymous_comment_unauthenticated c5_state 1 "nice" rfl (by decide) (by decide)
  exact ⟨h.1, h.2.1⟩

/-- C6 witness: the duplicate-email rejection on a concrete store. -/
theorem c6_witness :
    (register c6_state "Bob" "a@x.com" "pw" "abcdefgh").2.db = c6_state.db :=
  (c6_duplicate_email_register c6_state "Bob" "a@x.com" "pw" "abcdefgh"
    (by decide) ⟨⟨1, "Alice", "a@x.com", "stored-hash"⟩, by decide, rfl⟩).2.1

/-- C7 witness: registration and login roundtrip on the empty store. -/
theorem c7_witness :
    ∃ newu : User,
      (register c7_state "Alice" "a@x.com" "pw123" "abcdefgh").2.db.users
        = c7_state.db.users ++ [newu] ∧
      newu.email = "a@x.com" ∧
      newu.password ≠ "pw123" ∧
      (login (register c7_state "Alice" "a@x.com" "pw123" "abcdefgh").2 "a@x.com" "pw123").1
        = Response.redirect "home" ∧
      (login (register c7_state "Alice" "a@x.com" "pw123" "abcdefgh").2
          "a@x.com" "pw123").2.session = some newu.id :=
  c7_register_hash_roundtrip c7_state "Alice" "a@x.com" "pw123" "abcdefgh"
    (by decide) (by decide) (by decide)

/-- C8 witness: the successful-login case on a concrete store whose
credential was produced by the hashing helper. -/
theorem c8_witness :
    (login c8_state "a@x.com" "pw123").1 = Response.redirect "home" ∧
    (login c8_state "a@x.com" "pw123").2.session = some 1 := by
  have h := ((c8_login_cases c8_state "a@x.com" "pw123" (by decide)).2
    ⟨1, "Alice", "a@x.com", generate_password_hash "pw123" "saltsalt"⟩ (by decide)).2
    (by decide)
  exact ⟨h.1, h.2.2.2⟩

/-- C9 witness: the edit frame condition on a concrete one-post store. -/
theorem c9_witness :
    (edit_post c9_state 1 (some c9_fields)).1 = Response.redirect "read_post" ∧
    (edit_post c9_state 1 (some c9_fields)).2.db.comments = c9_state.db.comments := by
  have h := c9_edit_post_frame c9_state 1 c9_fields
    ⟨1, "Hello", "Sub", "May 01, 2025", "Body", "http://img", some 1⟩
    ⟨1, "Admin", "admin@x.com", "stored-hash"⟩ (by decide) rfl (by decide) (by decide)
    (by decide)
  exact ⟨h.1, h.2.2.1⟩

/-- C10 witness: a whitespace-only anonymous comment re-renders the post
page with nothing changed. -/
theorem c10_witness :
    (read_post c10_state 1 (some " ")).1 = Response.render "post.html" ∧
    (read_post c10_state 1 (some " ")).2 = c10_state :=
  (c10_validate_before_auth c10_state 1 " " rfl).1 (by decide)

end Blog
